import Mathlib

/-!
Shallow embedding of the inbound message demultiplexer of the
steam-session repository (src/transports/websocket/message_filter.rs).

Bytes are modelled as lists of naturals (each entry a byte value).
External library calls (the protobuf decoders from the `protobuf` crate
and gzip decompression from `flate2`) are parameters of the model,
collected in an `Env` structure: the source treats them as black boxes
and so do we.  Repository items that the claims need but whose source
files are not available (the `Error` enum from the websocket module,
`ApiResponseBody`, the `EMsg`/`EResult` enums, `PROTO_MASK`) are
modelled from the spec and marked as such.
-/

deriving instance DecidableEq for Except

namespace SteamSession

/-- A raw byte sequence; each entry is one byte value. -/
abbrev Bytes := List Nat

/-- Modelled from the spec: the result enumeration (`EResult` from
`crate::enums`, source file not available).  The code only distinguishes
the success value `OK` from every other known value, so the model keeps
`OK` and a generic constructor carrying the raw code of any other known
result. -/
inductive EResult where
  | OK
  | Other (code : Int)
deriving DecidableEq, Repr

/-- Modelled from the spec: the message-kind enumeration (`EMsg` from
`crate::enums`, source file not available).  The dispatch in
`handle_ws_message` only distinguishes `ClientLogOnResponse` and `Multi`
from everything else, so the model keeps those two and a generic
constructor carrying the raw code of any other known kind. -/
inductive EMsg where
  | Multi
  | ClientLogOnResponse
  | Other (code : Nat)
deriving DecidableEq, Repr

/-- Modelled from the spec: the websocket transport error enum
(`super::Error`, source file not available); variants follow the error
kinds of the spec.  `IoError` stands for the wrapped `std::io` error of
a truncated read, `ProtoError` for a wrapped protobuf decode failure and
`GzipError` for a wrapped decompression failure. -/
inductive Error where
  | UnexpectedNonProtobufMessage (raw : Nat)
  | UnknownEMsg (raw : Nat)
  | UnknownEResult (raw : Int)
  | EResultNotOK (r : EResult)
  | ClientLogOnResponseTryAnotherCM (r : EResult)
  | IoError
  | ProtoError
  | GzipError
deriving DecidableEq, Repr

/-- Modelled from the spec: the response body delivered to a waiting
caller (`ApiResponseBody` from the websocket response module, source
file not available).  `check_ws_message` fills it with
`eresult: Some(eresult), error_message: None, body: Some(body)`. -/
structure ApiResponseBody where
  eresult : Option EResult
  error_message : Option String
  body : Option Bytes
deriving DecidableEq, Repr

/-- The protobuf header record, with exactly the fields the filter
reads (`client_sessionid`, `jobid_target`, `eresult`). -/
structure CMsgProtoBufHeader where
  client_sessionid : Int
  jobid_target : Nat
  eresult : Int
deriving DecidableEq, Repr

/-- The multi-message container record, with exactly the fields the
filter reads (`message_body`, `size_unzipped`). -/
structure CMsgMulti where
  message_body : Bytes
  size_unzipped : Nat
deriving DecidableEq, Repr

/-- `MessageData` from message_filter.rs. -/
structure MessageData where
  eresult : EResult
  emsg : EMsg
  body : Bytes
  jobid_target : Nat
  client_sessionid : Int
deriving DecidableEq, Repr

/-- External decoding functions the filter calls: the protobuf-crate
`parse_from_bytes` decoders, gzip decompression, and the `TryFrom`
conversions of the two repository enums (modelled from the spec, their
source not being available: a conversion yields `none` exactly on a raw
value outside the known enumeration). -/
structure Env where
  parseHeader : Bytes → Except Error CMsgProtoBufHeader
  parseMulti : Bytes → Except Error CMsgMulti
  parseLogonEresult : Bytes → Except Error Int
  gunzip : Bytes → Except Error Bytes
  emsgFrom : Nat → Option EMsg
  eresultFrom : Int → Option EResult

/-- Modelled from the spec: `PROTO_MASK` from the websocket module
(source file not available) — the most-significant bit of the 32-bit
message-type field. -/
def PROTO_MASK : Nat := 2 ^ 31

/-- `ReadBytesExt::read_u32::<LittleEndian>` on an in-memory cursor:
consume four bytes, little endian; fewer than four bytes remaining is
an I/O error. -/
def readU32LE : Bytes → Except Error (Nat × Bytes)
  | a :: b :: c :: d :: rest =>
      .ok (a + b * 256 + c * 65536 + d * 16777216, rest)
  | _ => .error .IoError

/-- `Read::read_exact` into a buffer of length `n` on an in-memory
cursor: fewer than `n` bytes remaining is an I/O error. -/
def readExact (n : Nat) (bs : Bytes) : Except Error (Bytes × Bytes) :=
  if n ≤ bs.length then .ok (bs.take n, bs.drop n) else .error .IoError

/-- `parse_message` from message_filter.rs: read the raw 32-bit message
type, the 32-bit header length, that many header bytes, and the rest of
the input as the body (`read_to_end`, which cannot fail on an in-memory
cursor); then check the protobuf flag bit, decode the header and convert
the enums. -/
def parse_message (env : Env) (msg : Bytes) : Except Error MessageData :=
  match readU32LE msg with
  | .error e => .error e
  | .ok (raw_emsg, rest) =>
    match readU32LE rest with
    | .error e => .error e
    | .ok (header_length, rest) =>
      match readExact header_length rest with
      | .error e => .error e
      | .ok (header_buffer, body) =>
        if raw_emsg &&& PROTO_MASK = 0 then
          .error (.UnexpectedNonProtobufMessage raw_emsg)
        else
          let masked_emsg := raw_emsg &&& (PROTO_MASK - 1)
          match env.parseHeader header_buffer with
          | .error e => .error e
          | .ok header =>
            match env.emsgFrom masked_emsg with
            | none => .error (.UnknownEMsg masked_emsg)
            | some emsg =>
              match env.eresultFrom header.eresult with
              | none => .error (.UnknownEResult header.eresult)
              | some eresult =>
                .ok { eresult, emsg, body
                      jobid_target := header.jobid_target
                      client_sessionid := header.client_sessionid }

/-- Little-endian encoding of a 32-bit value, for building test frames
(wire layout modelled from the spec). -/
def u32le (n : Nat) : Bytes :=
  [n % 256, n / 256 % 256, n / 65536 % 256, n / 16777216 % 256]

/-- The observable state of a `MessageFilter` together with the outputs
of its read loop.  `job_id_filters` models the `DashMap` from job id to
one-shot sender (each sender identified by a token); `client_sessionid`
the shared `AtomicI32`.  `deliveries` records every value sent to a
one-shot sink, `unsolicited` every message sent on the `mpsc` channel
returned by `MessageFilter::new` (whose sender `_rest_tx` the source
drops unused), and `warnings` every error logged by the read loop. -/
structure FilterState where
  job_id_filters : List (Nat × Nat)
  client_sessionid : Int
  deliveries : List (Nat × Except Error ApiResponseBody)
  unsolicited : List (EMsg × Bytes)
  warnings : List Error
deriving DecidableEq, Repr

/-- `DashMap::remove(&key)`: the stored sender for `key`, if any
(the map holds at most one entry per key). -/
def dashGet (k : Nat) (m : List (Nat × Nat)) : Option (Nat × Nat) :=
  m.find? (fun p => p.1 == k)

/-- `MessageFilter::on_job_id`: insert a fresh one-shot sender (token
`tok`) under `id`; like `DashMap::insert`, a previous entry for the same
key is replaced. -/
def on_job_id (st : FilterState) (id tok : Nat) : FilterState :=
  { st with job_id_filters :=
      (id, tok) :: st.job_id_filters.filter (fun p => p.1 != id) }

/-- `check_ws_message` from message_filter.rs: decode the frame, update
the shared session id when the decoded one is non-zero and differs,
then, for a non-zero `jobid_target` with a registered sink, atomically
remove the sink and deliver `Ok(body)` on `EResult::OK` and
`Err(EResultNotOK)` otherwise (a send to a dropped receiver is ignored);
every other frame is handed back as `Some((emsg, body))`. -/
def check_ws_message (env : Env) (st : FilterState) (msg : Bytes) :
    FilterState × Except Error (Option (EMsg × Bytes)) :=
  match parse_message env msg with
  | .error e => (st, .error e)
  | .ok md =>
    let st :=
      if md.client_sessionid ≠ 0 ∧ md.client_sessionid ≠ st.client_sessionid
      then { st with client_sessionid := md.client_sessionid }
      else st
    if md.jobid_target ≠ 0 then
      match dashGet md.jobid_target st.job_id_filters with
      | some (_, tok) =>
        let message : Except Error ApiResponseBody :=
          if md.eresult = .OK then
            .ok { eresult := some md.eresult
                  error_message := none
                  body := some md.body }
          else
            .error (.EResultNotOK md.eresult)
        ({ st with
            job_id_filters :=
              st.job_id_filters.filter (fun p => p.1 != md.jobid_target)
            deliveries := st.deliveries ++ [(tok, message)] },
         .ok none)
      | none => (st, .ok (some (md.emsg, md.body)))
    else (st, .ok (some (md.emsg, md.body)))

/-- The `while let Ok(chunk_size) = cursor.read_u32()` loop of
`process_multi_message`: read a 4-byte little-endian length (a failed
read ends the loop successfully), `read_exact` that many bytes (a short
read is an I/O error that aborts the container), and feed each chunk to
`check_ws_message`. -/
def processChunks (env : Env) (st : FilterState) : Bytes → FilterState × Except Error Unit
  | a :: b :: c :: d :: rest =>
    let chunk_size := a + b * 256 + c * 65536 + d * 16777216
    if chunk_size ≤ rest.length then
      match check_ws_message env st (rest.take chunk_size) with
      | (st', .error e) => (st', .error e)
      | (st', .ok _) => processChunks env st' (rest.drop chunk_size)
    else (st, .error .IoError)
  | _ => (st, .ok ())
termination_by bs => bs.length
decreasing_by simp [List.length_drop]; omega

/-- `process_multi_message` from message_filter.rs: decode the
`CMsgMulti` body, gunzip the payload when `size_unzipped` is non-zero,
then run the chunk loop. -/
def process_multi_message (env : Env) (st : FilterState) (body_buffer : Bytes) :
    FilterState × Except Error Unit :=
  match env.parseMulti body_buffer with
  | .error e => (st, .error e)
  | .ok message =>
    let payloadE :=
      if message.size_unzipped ≠ 0 then env.gunzip message.message_body
      else .ok message.message_body
    match payloadE with
    | .error e => (st, .error e)
    | .ok payload => processChunks env st payload

/-- `handle_ws_message` from message_filter.rs: run the correlation
step; an uncorrelated frame is dispatched on its kind —
`ClientLogOnResponse` decodes the logon response and returns the
`ClientLogOnResponseTryAnotherCM` error, `Multi` is expanded, and every
other kind is only logged (the source sends nothing on the unsolicited
channel: its sender `_rest_tx` is dropped in `MessageFilter::new`). -/
def handle_ws_message (env : Env) (st : FilterState) (msg : Bytes) :
    FilterState × Except Error Unit :=
  match check_ws_message env st msg with
  | (st', .error e) => (st', .error e)
  | (st', .ok none) => (st', .ok ())
  | (st', .ok (some (emsg, body))) =>
    match emsg with
    | .ClientLogOnResponse =>
      match env.parseLogonEresult body with
      | .error e => (st', .error e)
      | .ok raw =>
        match env.eresultFrom raw with
        | none => (st', .error (.UnknownEResult raw))
        | some eresult => (st', .error (.ClientLogOnResponseTryAnotherCM eresult))
    | .Multi => process_multi_message env st' body
    | .Other _ => (st', .ok ())

/-- One item of the websocket inbound stream as seen by the read loop
spawned in `MessageFilter::new`: a binary frame, any other frame kind,
or a stream-level error. -/
inductive WsItem where
  | binary (buffer : Bytes)
  | nonBinary
  | streamError
deriving DecidableEq, Repr

/-- The read loop spawned in `MessageFilter::new`: for each stream item
until the stream ends, a binary frame is handled and any error from
handling is logged (`log::warn!`) — never returned, never a break; other
frame kinds and stream errors are logged and skipped.  The loop has no
early exit of any kind. -/
def read_loop (env : Env) (st : FilterState) : List WsItem → FilterState
  | [] => st
  | .binary buffer :: rest =>
    match handle_ws_message env st buffer with
    | (st', .error e) =>
        read_loop env { st' with warnings := st'.warnings ++ [e] } rest
    | (st', .ok _) => read_loop env st' rest
  | .nonBinary :: rest => read_loop env st rest
  | .streamError :: rest => read_loop env st rest

/-- The chunk-extraction of the `process_multi_message` loop viewed as
a pure function: the same reads in the same order, with the extracted
chunks collected instead of dispatched.
`unpack_ok_processChunks` below ties it to `processChunks`. -/
def unpackChunks : Bytes → Except Error (List Bytes)
  | a :: b :: c :: d :: rest =>
    let chunk_size := a + b * 256 + c * 65536 + d * 16777216
    if chunk_size ≤ rest.length then
      match unpackChunks (rest.drop chunk_size) with
      | .ok tail => .ok (rest.take chunk_size :: tail)
      | .error e => .error e
    else .error .IoError
  | _ => .ok []
termination_by bs => bs.length
decreasing_by simp [List.length_drop]; omega

/-- Feeding a list of already-extracted chunks one by one to
`check_ws_message`, aborting on the first error — the dispatch part of
the `process_multi_message` loop. -/
def dispatchChunks (env : Env) (st : FilterState) :
    List Bytes → FilterState × Except Error Unit
  | [] => (st, .ok ())
  | chunk :: rest =>
    match check_ws_message env st chunk with
    | (st', .error e) => (st', .error e)
    | (st', .ok _) => dispatchChunks env st' rest

/-- `process_multi_message` with the chunk dispatch dropped: decode the
container, decompress if the size hint is non-zero, extract the chunks. -/
def unpackMulti (env : Env) (body_buffer : Bytes) : Except Error (List Bytes) :=
  match env.parseMulti body_buffer with
  | .error e => .error e
  | .ok message =>
    let payloadE :=
      if message.size_unzipped ≠ 0 then env.gunzip message.message_body
      else .ok message.message_body
    match payloadE with
    | .error e => .error e
    | .ok payload => unpackChunks payload

/-- Modelled from the spec: the payload of a multi-message container
built from a list of sub-frames — the concatenation of
`(u32 length_le, frame bytes)` records (the repository has no encoder;
the layout is the one of spec section 6). -/
def encodeMultiPayload : List Bytes → Bytes
  | [] => []
  | f :: fs => u32le f.length ++ f ++ encodeMultiPayload fs

/-- Modelled from the spec: a full wire frame — 32-bit message type with
the protobuf flag bit set, 32-bit header length, header bytes, body. -/
def mkFrame (code : Nat) (header body : Bytes) : Bytes :=
  u32le (code + PROTO_MASK) ++ u32le header.length ++ header ++ body

/-- A concrete header codec for tests: a header is exactly three bytes
`[session, jobid, eresult]`. -/
def testParseHeader : Bytes → Except Error CMsgProtoBufHeader
  | [s, j, r] => .ok { client_sessionid := (s : Int), jobid_target := j, eresult := (r : Int) }
  | _ => .error .ProtoError

/-- A concrete multi-container codec for tests: first byte is the
`size_unzipped` hint, the rest is `message_body`. -/
def testParseMulti : Bytes → Except Error CMsgMulti
  | z :: rest => .ok { message_body := rest, size_unzipped := z }
  | [] => .error .ProtoError

/-- A concrete logon-response codec for tests: first byte is the
`eresult` field. -/
def testParseLogonEresult : Bytes → Except Error Int
  | r :: _ => .ok (r : Int)
  | [] => .error .ProtoError

/-- A concrete decompressor for tests: the identity (paired with the
identity as compressor). -/
def testGunzip (bs : Bytes) : Except Error Bytes := .ok bs

/-- A concrete `EMsg::try_from` for tests: code 1 is `Multi`, 751 is
`ClientLogOnResponse` (their wire values), 2 is some other known kind,
everything else is unknown. -/
def testEmsgFrom (n : Nat) : Option EMsg :=
  if n = 1 then some .Multi
  else if n = 751 then some .ClientLogOnResponse
  else if n = 2 then some (.Other 2)
  else none

/-- A concrete `EResult::try_from` for tests: 1 is `OK` (its wire
value), 2 is some other known result, everything else is unknown. -/
def testEresultFrom (r : Int) : Option EResult :=
  if r = 1 then some .OK
  else if r = 2 then some (.Other 2)
  else none

/-- The concrete environment used for witnesses and counterexamples. -/
def testEnv : Env :=
  { parseHeader := testParseHeader
    parseMulti := testParseMulti
    parseLogonEresult := testParseLogonEresult
    gunzip := testGunzip
    emsgFrom := testEmsgFrom
    eresultFrom := testEresultFrom }

/-- The state of a freshly created filter: empty table, session id 0,
nothing delivered, forwarded or logged. -/
def initSt : FilterState :=
  { job_id_filters := []
    client_sessionid := 0
    deliveries := []
    unsolicited := []
    warnings := [] }

/-- The test environment with a decompressor that always fails, for
exercising the decompression-failure path. -/
def gzFailEnv : Env :=
  { testEnv with gunzip := fun _ => .error .GzipError }

theorem u32le_readU32LE (n : Nat) (hn : n < 2 ^ 32) (rest : Bytes) :
    readU32LE (u32le n ++ rest) = .ok (n, rest) := by
  simp only [u32le, List.cons_append, List.nil_append, readU32LE]
  congr 1
  congr 1
  omega

theorem dashGet_filter_self (k : Nat) (l : List (Nat × Nat)) :
    dashGet k (l.filter (fun p => p.1 != k)) = none := by
  rw [dashGet, List.find?_eq_none]
  intro x hx
  rw [List.mem_filter] at hx
  simpa using hx.2

theorem processChunks_cons (env : Env) (st : FilterState) (chunk rest : Bytes)
    (h : chunk.length < 2 ^ 32) :
    processChunks env st (u32le chunk.length ++ chunk ++ rest) =
      match check_ws_message env st chunk with
      | (st', .error e) => (st', .error e)
      | (st', .ok _) => processChunks env st' rest := by
  have hsz : chunk.length % 256 + chunk.length / 256 % 256 * 256 +
      chunk.length / 65536 % 256 * 65536 +
      chunk.length / 16777216 % 256 * 16777216 = chunk.length := by omega
  have hle : chunk.length ≤ (chunk ++ rest).length := by
    simp [List.length_append]
  simp only [u32le, List.append_assoc, List.cons_append, List.nil_append]
  rw [processChunks]
  simp only [hsz, if_pos hle, List.take_left, List.drop_left]

theorem unpackChunks_cons (chunk rest : Bytes) (h : chunk.length < 2 ^ 32) :
    unpackChunks (u32le chunk.length ++ chunk ++ rest) =
      match unpackChunks rest with
      | .ok tail => .ok (chunk :: tail)
      | .error e => .error e := by
  have hsz : chunk.length % 256 + chunk.length / 256 % 256 * 256 +
      chunk.length / 65536 % 256 * 65536 +
      chunk.length / 16777216 % 256 * 16777216 = chunk.length := by omega
  have hle : chunk.length ≤ (chunk ++ rest).length := by
    simp [List.length_append]
  simp only [u32le, List.append_assoc, List.cons_append, List.nil_append]
  rw [unpackChunks]
  simp only [hsz, if_pos hle, List.take_left, List.drop_left]

theorem unpackChunks_encode (frames : List Bytes)
    (h : ∀ f ∈ frames, f.length < 2 ^ 32) :
    unpackChunks (encodeMultiPayload frames) = .ok frames := by
  induction frames with
  | nil => simp [encodeMultiPayload, unpackChunks]
  | cons f fs ih =>
    rw [encodeMultiPayload, unpackChunks_cons f (encodeMultiPayload fs)
      (h f (List.mem_cons_self f fs))]
    rw [ih (fun g hg => h g (List.mem_cons_of_mem f hg))]

theorem processChunks_encode (env : Env) (frames : List Bytes)
    (h : ∀ f ∈ frames, f.length < 2 ^ 32) (st : FilterState) :
    processChunks env st (encodeMultiPayload frames) =
      dispatchChunks env st frames := by
  induction frames generalizing st with
  | nil => simp [encodeMultiPayload, processChunks, dispatchChunks]
  | cons f fs ih =>
    rw [encodeMultiPayload, processChunks_cons env st f (encodeMultiPayload fs)
      (h f (List.mem_cons_self f fs)), dispatchChunks]
    match hc : check_ws_message env st f with
    | (st', .error e) => rfl
    | (st', .ok v) => exact ih (fun g hg => h g (List.mem_cons_of_mem f hg)) st'

/-- C4 — For every valid (untruncated) frame whose 32-bit message-type
field has the protobuf flag bit (most-significant bit) unset, decoding
fails with `UnexpectedNonProtobufMessage`, and the raw (unmasked)
message-type value is preserved in the error. -/
theorem C4_nonProtobuf_error (env : Env) (raw : Nat) (header body : Bytes)
    (hraw : raw < 2 ^ 32) (hhdr : header.length < 2 ^ 32)
    (hflag : raw &&& PROTO_MASK = 0) :
    parse_message env (u32le raw ++ u32le header.length ++ header ++ body) =
      .error (.UnexpectedNonProtobufMessage raw) := by
  have hex : readExact header.length (header ++ body) = .ok (header, body) := by
    rw [readExact, if_pos (by simp [List.length_append])]
    rw [List.take_left, List.drop_left]
  rw [List.append_assoc, List.append_assoc]
  simp only [parse_message, u32le_readU32LE raw hraw,
    u32le_readU32LE header.length hhdr, hex, hflag, if_pos]

/-- A witness for C4: a concrete frame with the flag bit unset. -/
theorem C4_witness :
    parse_message testEnv (u32le 2 ++ u32le 3 ++ [0, 0, 1] ++ [9]) =
      .error (.UnexpectedNonProtobufMessage 2) := by
  have h := C4_nonProtobuf_error testEnv 2 [0, 0, 1] [9]
    (by decide) (by decide) (by decide)
  simpa using h

/-- C10 — The frame decoder checks the protobuf flag bit only after
reading the header-length field, the declared number of header bytes and
the body: an input too short to supply the 8 fixed bytes, or too short to
supply the declared header bytes, fails with the truncation (I/O) decode
error even when its flag bit is unset — never with
`UnexpectedNonProtobufMessage`. -/
theorem C10_truncation_before_flag :
    (∀ (env : Env) (msg : Bytes), msg.length < 8 →
      parse_message env msg = .error .IoError) ∧
    (∀ (env : Env) (raw hlen : Nat) (rest : Bytes),
      raw < 2 ^ 32 → hlen < 2 ^ 32 → raw &&& PROTO_MASK = 0 →
      rest.length < hlen →
      parse_message env (u32le raw ++ u32le hlen ++ rest) = .error .IoError) := by
  constructor
  · intro env msg hlen
    match msg, hlen with
    | [], _ => rfl
    | [a], _ => rfl
    | [a, b], _ => rfl
    | [a, b, c], _ => rfl
    | a :: b :: c :: d :: rest, hl =>
      have hr : rest.length < 4 := by
        simp only [List.length_cons] at hl
        omega
      match rest, hr with
      | [], _ => rfl
      | [a], _ => rfl
      | [a, b], _ => rfl
      | [a, b, c], _ => rfl
  · intro env raw hlen rest hraw hhlen hflag hshort
    have hex : readExact hlen rest = .error .IoError := by
      rw [readExact, if_neg (by omega)]
    rw [List.append_assoc]
    simp only [parse_message, u32le_readU32LE raw hraw,
      u32le_readU32LE hlen hhlen, hex]

/-- A witness for C10: a 9-byte input with the flag bit unset whose
declared header length (5) exceeds the single remaining byte, and a
3-byte input. -/
theorem C10_witness :
    parse_message testEnv [7] = .error .IoError ∧
    parse_message testEnv (u32le 2 ++ u32le 5 ++ [0]) = .error .IoError := by
  constructor
  · exact C10_truncation_before_flag.1 testEnv [7] (by decide)
  · exact C10_truncation_before_flag.2 testEnv 2 5 [0]
      (by decide) (by decide) (by decide) (by decide)

/-- C1 — For every inbound frame whose decoded `job_id_target` is
non-zero and for which a sink was registered under that job id before
the frame is processed, processing the frame removes the entry from the
pending-request table (the table no longer contains that id afterward),
delivers exactly one value to that sink — `Ok` carrying the frame body
when `result_code` is `OK`, `Err(EResultNotOK(result_code))` otherwise —
and does not forward the frame to the unsolicited stream. -/
theorem C1_correlated_delivery (env : Env) (st : FilterState) (msg : Bytes)
    (md : MessageData) (pr : Nat × Nat)
    (hp : parse_message env msg = .ok md)
    (hj : md.jobid_target ≠ 0)
    (hs : dashGet md.jobid_target st.job_id_filters = some pr) :
    ∃ st₁ : FilterState,
      check_ws_message env st msg = (st₁, .ok none) ∧
      handle_ws_message env st msg = (st₁, .ok ()) ∧
      dashGet md.jobid_target st₁.job_id_filters = none ∧
      st₁.deliveries = st.deliveries ++
        [(pr.2,
          if md.eresult = .OK then
            .ok { eresult := some md.eresult
                  error_message := none
                  body := some md.body }
          else .error (.EResultNotOK md.eresult))] ∧
      st₁.unsolicited = st.unsolicited := by
  obtain ⟨j, tok⟩ := pr
  by_cases hc : md.client_sessionid ≠ 0 ∧ md.client_sessionid ≠ st.client_sessionid
  · have hcheck : check_ws_message env st msg =
        ({ st with
            client_sessionid := md.client_sessionid
            job_id_filters :=
              st.job_id_filters.filter (fun p => p.1 != md.jobid_target)
            deliveries := st.deliveries ++
              [(tok,
                if md.eresult = .OK then
                  .ok { eresult := some md.eresult
                        error_message := none
                        body := some md.body }
                else .error (.EResultNotOK md.eresult))] },
          .ok none) := by
      simp only [check_ws_message, hp, if_pos hc, if_pos hj, hs]
    refine ⟨_, hcheck, ?_, ?_, by simp, by simp⟩
    · simp only [handle_ws_message, hcheck]
    · exact dashGet_filter_self md.jobid_target st.job_id_filters
  · have hcheck : check_ws_message env st msg =
        ({ st with
            job_id_filters :=
              st.job_id_filters.filter (fun p => p.1 != md.jobid_target)
            deliveries := st.deliveries ++
              [(tok,
                if md.eresult = .OK then
                  .ok { eresult := some md.eresult
                        error_message := none
                        body := some md.body }
                else .error (.EResultNotOK md.eresult))] },
          .ok none) := by
      simp only [check_ws_message, hp, if_neg hc, if_pos hj, hs]
    refine ⟨_, hcheck, ?_, ?_, by simp, by simp⟩
    · simp only [handle_ws_message, hcheck]
    · exact dashGet_filter_self md.jobid_target st.job_id_filters

/-- A witness for C1: the spec's concrete scenario — register job id 42,
feed a frame with `job_id_target` 42, `result_code` `OK` and body
`[1, 2, 3]`; the sink receives `Ok([1, 2, 3])`, the table entry is gone
and nothing reaches the unsolicited stream. -/
theorem C1_witness :
    ∃ st₁ : FilterState,
      check_ws_message testEnv (on_job_id initSt 42 7)
        (mkFrame 2 [0, 42, 1] [1, 2, 3]) = (st₁, .ok none) ∧
      handle_ws_message testEnv (on_job_id initSt 42 7)
        (mkFrame 2 [0, 42, 1] [1, 2, 3]) = (st₁, .ok ()) ∧
      dashGet 42 st₁.job_id_filters = none ∧
      st₁.deliveries = (on_job_id initSt 42 7).deliveries ++
        [(7, .ok { eresult := some .OK
                   error_message := none
                   body := some [1, 2, 3] })] ∧
      st₁.unsolicited = (on_job_id initSt 42 7).unsolicited :=
  C1_correlated_delivery testEnv (on_job_id initSt 42 7)
    (mkFrame 2 [0, 42, 1] [1, 2, 3])
    { eresult := .OK, emsg := .Other 2, body := [1, 2, 3]
      jobid_target := 42, client_sessionid := 0 }
    (42, 7) (by decide) (by decide) (by decide)

theorem check_unsolicited (env : Env) (st : FilterState) (msg : Bytes) :
    ((check_ws_message env st msg).1).unsolicited = st.unsolicited := by
  simp only [check_ws_message]
  repeat' split
  all_goals rfl

theorem processChunks_short (env : Env) (st : FilterState) (payload : Bytes)
    (h : payload.length < 4) : processChunks env st payload = (st, .ok ()) := by
  match payload, h with
  | [], _ => simp [processChunks]
  | [a], _ => simp [processChunks]
  | [a, b], _ => simp [processChunks]
  | [a, b, c], _ => simp [processChunks]

theorem processChunks_unsolicited (env : Env) :
    ∀ (n : Nat) (payload : Bytes), payload.length ≤ n → ∀ st : FilterState,
      ((processChunks env st payload).1).unsolicited = st.unsolicited := by
  intro n
  induction n with
  | zero =>
    intro payload hlen st
    rw [processChunks_short env st payload (by omega)]
  | succ n ih =>
    intro payload hlen st
    match payload, hlen with
    | [], _ => rw [processChunks_short env st _ (by simp)]
    | [a], _ => rw [processChunks_short env st _ (by simp)]
    | [a, b], _ => rw [processChunks_short env st _ (by simp)]
    | [a, b, c], _ => rw [processChunks_short env st _ (by simp)]
    | a :: b :: c :: d :: rest, hl =>
      rw [processChunks]
      split
      · split
        · rename_i st' e heq
          have hcu := check_unsolicited env st
            (rest.take (a + b * 256 + c * 65536 + d * 16777216))
          rw [heq] at hcu
          exact hcu
        · rename_i st' v heq
          have hcu := check_unsolicited env st
            (rest.take (a + b * 256 + c * 65536 + d * 16777216))
          rw [heq] at hcu
          have hrest : (rest.drop (a + b * 256 + c * 65536 + d * 16777216)).length ≤ n := by
            have h1 := List.length_drop (a + b * 256 + c * 65536 + d * 16777216) rest
            simp only [List.length_cons] at hl
            omega
          rw [ih _ hrest st']
          exact hcu
      · rfl

theorem process_multi_unsolicited (env : Env) (st : FilterState) (body : Bytes) :
    ((process_multi_message env st body).1).unsolicited = st.unsolicited := by
  simp only [process_multi_message]
  split
  · rfl
  · split
    · rfl
    · exact processChunks_unsolicited env _ _ le_rfl st

theorem handle_unsolicited (env : Env) (st : FilterState) (msg : Bytes) :
    ((handle_ws_message env st msg).1).unsolicited = st.unsolicited := by
  have hcu := check_unsolicited env st msg
  simp only [handle_ws_message]
  split
  · rename_i st' e heq
    rw [heq] at hcu
    exact hcu
  · rename_i st' heq
    rw [heq] at hcu
    exact hcu
  · rename_i st' emsg body heq
    rw [heq] at hcu
    split
    · split
      · exact hcu
      · split
        · exact hcu
        · exact hcu
    · rw [process_multi_unsolicited env st' body]
      exact hcu
    · exact hcu

theorem read_loop_unsolicited (env : Env) :
    ∀ (items : List WsItem) (st : FilterState),
      (read_loop env st items).unsolicited = st.unsolicited := by
  intro items
  induction items with
  | nil => intro st; rfl
  | cons item rest ih =>
    intro st
    match item with
    | .binary buffer =>
      have hhu := handle_unsolicited env st buffer
      simp only [read_loop]
      split
      · rename_i st' e heq
        rw [heq] at hhu
        rw [ih]
        exact hhu
      · rename_i st' u heq
        rw [heq] at hhu
        rw [ih]
        exact hhu
    | .nonBinary => exact ih st
    | .streamError => exact ih st

theorem check_uncorrelated (env : Env) (st : FilterState) (msg : Bytes)
    (md : MessageData) (hp : parse_message env msg = .ok md)
    (hnosink : md.jobid_target = 0 ∨
      dashGet md.jobid_target st.job_id_filters = none) :
    check_ws_message env st msg =
      (if md.client_sessionid ≠ 0 ∧ md.client_sessionid ≠ st.client_sessionid
       then { st with client_sessionid := md.client_sessionid } else st,
       .ok (some (md.emsg, md.body))) := by
  by_cases hc : md.client_sessionid ≠ 0 ∧ md.client_sessionid ≠ st.client_sessionid
  · rcases hnosink with h0 | hnone
    · simp only [check_ws_message, hp, if_pos hc, h0]
      simp
    · simp only [check_ws_message, hp, if_pos hc]
      by_cases hj : md.jobid_target ≠ 0
      · rw [if_pos hj]
        simp only [hnone]
      · rw [if_neg hj]
  · rcases hnosink with h0 | hnone
    · simp only [check_ws_message, hp, if_neg hc, h0]
      simp
    · simp only [check_ws_message, hp, if_neg hc]
      by_cases hj : md.jobid_target ≠ 0
      · rw [if_pos hj]
        simp only [hnone]
      · rw [if_neg hj]

/-- C7 — The shared session-state value is overwritten with a decoded
frame's session id exactly when that id is non-zero and differs from the
currently stored value (a zero session id never overwrites); starting
from stored value 0, processing frames carrying session ids
`[0, 5, 0, 7]` leaves the stored value 7. -/
theorem C7_session_update :
    (∀ (env : Env) (st : FilterState) (msg : Bytes) (md : MessageData),
      parse_message env msg = .ok md →
      (check_ws_message env st msg).1.client_sessionid =
        if md.client_sessionid ≠ 0 ∧ md.client_sessionid ≠ st.client_sessionid
        then md.client_sessionid else st.client_sessionid) ∧
    (read_loop testEnv initSt
      [.binary (mkFrame 2 [0, 0, 1] []), .binary (mkFrame 2 [5, 0, 1] []),
       .binary (mkFrame 2 [0, 0, 1] []), .binary (mkFrame 2 [7, 0, 1] [])]
      ).client_sessionid = 7 := by
  constructor
  · intro env st msg md hp
    by_cases hc : md.client_sessionid ≠ 0 ∧ md.client_sessionid ≠ st.client_sessionid
    · rw [if_pos hc]
      simp only [check_ws_message, hp, if_pos hc]
      split
      · split <;> rfl
      · rfl
    · rw [if_neg hc]
      simp only [check_ws_message, hp, if_neg hc]
      split
      · split <;> rfl
      · rfl
  · decide

/-- A witness for C7: a frame carrying session id 5 processed from the
initial state stores 5. -/
theorem C7_witness :
    (check_ws_message testEnv initSt (mkFrame 2 [5, 0, 1] [])).1.client_sessionid
      = 5 := by
  have h := C7_session_update.1 testEnv initSt (mkFrame 2 [5, 0, 1] [])
    { eresult := .OK, emsg := .Other 2, body := []
      jobid_target := 0, client_sessionid := 5 } (by decide)
  simpa using h

/-- C8 — A frame whose decode fails only gets its error logged: the
frame is dropped, no other state changes, and the read loop continues
with the remaining items exactly as if the bad frame were absent; in the
concrete run `[well-formed, truncated, well-formed]` both well-formed
frames are still delivered to their sinks. -/
theorem C8_malformed_frame_skipped :
    (∀ (env : Env) (st : FilterState) (bad : Bytes) (e : Error)
      (rest : List WsItem),
      parse_message env bad = .error e →
      read_loop env st (.binary bad :: rest) =
        read_loop env { st with warnings := st.warnings ++ [e] } rest) ∧
    read_loop testEnv (on_job_id (on_job_id initSt 42 7) 43 8)
      [.binary (mkFrame 2 [0, 42, 1] [1]), .binary [0],
       .binary (mkFrame 2 [0, 43, 1] [2])] =
      { job_id_filters := []
        client_sessionid := 0
        deliveries :=
          [(7, .ok { eresult := some .OK, error_message := none, body := some [1] }),
           (8, .ok { eresult := some .OK, error_message := none, body := some [2] })]
        unsolicited := []
        warnings := [.IoError] } := by
  constructor
  · intro env st bad e rest hp
    have hh : handle_ws_message env st bad = (st, .error e) := by
      simp only [handle_ws_message, check_ws_message, hp]
    simp only [read_loop, hh]
  · decide

/-- A witness for C8: a single truncated frame leaves only a log entry
behind. -/
theorem C8_witness :
    read_loop testEnv initSt [.binary [0]] =
      { initSt with warnings := initSt.warnings ++ [.IoError] } := by
  have h := C8_malformed_frame_skipped.1 testEnv initSt [0] .IoError []
    (by decide)
  simpa [read_loop] using h

/-- C3 counterexample — a well-formed frame with a non-zero job id, no
registered sink and an ordinary message type is NOT forwarded to the
unsolicited-message output: handling it returns the state unchanged and
the unsolicited output stays empty, while the claim expects the pair
`(message type, body)` to be appended to it. -/
theorem C3_counterexample :
    handle_ws_message testEnv initSt (mkFrame 2 [0, 9, 1] [4]) =
      (initSt, .ok ()) ∧
    (handle_ws_message testEnv initSt (mkFrame 2 [0, 9, 1] [4])).1.unsolicited ≠
      initSt.unsolicited ++ [(EMsg.Other 2, [4])] := by
  constructor
  · decide
  · decide

/-- C3 amended — For every well-formed inbound frame that does not match
a pending job id and whose message type is neither `ClientLogOnResponse`
nor `Multi`, the correlation step hands the frame back with its message
type and body unchanged, but the read loop does not forward it to the
unsolicited-message output stream: the frame is only logged and dropped
(the channel's send half, `_rest_tx`, is dropped unused in
`MessageFilter::new`), so the unsolicited output of the read loop never
receives anything at all. -/
theorem C3_uncorrelated_dropped :
    (∀ (env : Env) (st : FilterState) (msg : Bytes) (md : MessageData),
      parse_message env msg = .ok md →
      md.emsg ≠ .ClientLogOnResponse → md.emsg ≠ .Multi →
      (md.jobid_target = 0 ∨
        dashGet md.jobid_target st.job_id_filters = none) →
      ∃ st₁ : FilterState,
        check_ws_message env st msg = (st₁, .ok (some (md.emsg, md.body))) ∧
        handle_ws_message env st msg = (st₁, .ok ()) ∧
        st₁.job_id_filters = st.job_id_filters ∧
        st₁.deliveries = st.deliveries ∧
        st₁.unsolicited = st.unsolicited) ∧
    (∀ (env : Env) (items : List WsItem) (st : FilterState),
      (read_loop env st items).unsolicited = st.unsolicited) := by
  constructor
  · intro env st msg md hp hne1 hne2 hnosink
    have hcheck := check_uncorrelated env st msg md hp hnosink
    refine ⟨_, hcheck, ?_, ?_, ?_, ?_⟩
    · simp only [handle_ws_message, hcheck]
      rcases hem : md.emsg with _ | _ | c
      · exact absurd hem hne2
      · exact absurd hem hne1
      · rfl
    · split <;> rfl
    · split <;> rfl
    · split <;> rfl
  · exact read_loop_unsolicited

/-- A witness for the amended C3: the counterexample frame survives the
correlation step unchanged and is then dropped. -/
theorem C3_witness :
    ∃ st₁ : FilterState,
      check_ws_message testEnv initSt (mkFrame 2 [0, 9, 1] [4]) =
        (st₁, .ok (some (EMsg.Other 2, [4]))) ∧
      handle_ws_message testEnv initSt (mkFrame 2 [0, 9, 1] [4]) =
        (st₁, .ok ()) ∧
      st₁.job_id_filters = initSt.job_id_filters ∧
      st₁.deliveries = initSt.deliveries ∧
      st₁.unsolicited = initSt.unsolicited :=
  C3_uncorrelated_dropped.1 testEnv initSt (mkFrame 2 [0, 9, 1] [4])
    { eresult := .OK, emsg := .Other 2, body := [4]
      jobid_target := 9, client_sessionid := 0 }
    (by decide) (by decide) (by decide) (Or.inr (by decide))

/-- C2 — code-bug evidence: a decodable `ClientLogOnResponse` frame
arriving outside correlation makes `handle_ws_message` return the
terminal `ClientLogOnResponseTryAnotherCM` error, but the read loop
spawned in `MessageFilter::new` only logs that error and continues: a
later frame on the same stream is still processed and delivered (here
job id 42 still resolves after the logon response), so the loop is not
terminated and the error never reaches the owner of the transport. -/
theorem C2_logon_does_not_terminate_loop :
    handle_ws_message testEnv (on_job_id initSt 42 7)
      (mkFrame 751 [0, 0, 1] [2]) =
      (on_job_id initSt 42 7,
        .error (.ClientLogOnResponseTryAnotherCM (.Other 2))) ∧
    read_loop testEnv (on_job_id initSt 42 7)
      [.binary (mkFrame 751 [0, 0, 1] [2]),
       .binary (mkFrame 2 [0, 42, 1] [1, 2, 3])] =
      { job_id_filters := []
        client_sessionid := 0
        deliveries :=
          [(7, .ok { eresult := some .OK, error_message := none
                     body := some [1, 2, 3] })]
        unsolicited := []
        warnings := [.ClientLogOnResponseTryAnotherCM (.Other 2)] } := by
  constructor
  · decide
  · decide

theorem unpackChunks_short (payload : Bytes) (h : payload.length < 4) :
    unpackChunks payload = .ok [] := by
  match payload, h with
  | [], _ => simp [unpackChunks]
  | [a], _ => simp [unpackChunks]
  | [a, b], _ => simp [unpackChunks]
  | [a, b, c], _ => simp [unpackChunks]

theorem processChunks_eq_dispatch_of_unpack (env : Env) :
    ∀ (n : Nat) (payload : Bytes), payload.length ≤ n →
      ∀ (chunks : List Bytes) (st : FilterState),
        unpackChunks payload = .ok chunks →
        processChunks env st payload = dispatchChunks env st chunks := by
  intro n
  induction n with
  | zero =>
    intro payload hlen chunks st hup
    have h4 : payload.length < 4 := by omega
    rw [unpackChunks_short payload h4] at hup
    injection hup with hch
    subst hch
    rw [processChunks_short env st payload h4, dispatchChunks]
  | succ n ih =>
    intro payload hlen chunks st hup
    by_cases h4 : payload.length < 4
    · rw [unpackChunks_short payload h4] at hup
      injection hup with hch
      subst hch
      rw [processChunks_short env st payload h4, dispatchChunks]
    · rcases payload with _ | ⟨a, _ | ⟨b, _ | ⟨c, _ | ⟨d, rest⟩⟩⟩⟩
      · simp at h4
      · simp at h4
      · simp at h4
      · simp at h4
      · rw [unpackChunks] at hup
        rw [processChunks]
        by_cases hsz : a + b * 256 + c * 65536 + d * 16777216 ≤ rest.length
        · rw [if_pos hsz] at hup ⊢
          cases hrec : unpackChunks
              (rest.drop (a + b * 256 + c * 65536 + d * 16777216)) with
          | error e => rw [hrec] at hup; simp at hup
          | ok tail =>
            rw [hrec] at hup
            injection hup with hch
            subst hch
            rw [dispatchChunks]
            cases hc : check_ws_message env st
                (rest.take (a + b * 256 + c * 65536 + d * 16777216)) with
            | mk st' r =>
              cases r with
              | error e => simp only [hc]
              | ok v =>
                simp only [hc]
                have hdrop :
                    (rest.drop (a + b * 256 + c * 65536 + d * 16777216)).length ≤ n := by
                  have h1 := List.length_drop
                    (a + b * 256 + c * 65536 + d * 16777216) rest
                  simp only [List.length_cons] at hlen
                  omega
                exact ih _ hdrop tail st' hrec
        · rw [if_neg hsz] at hup
          simp at hup

theorem processChunks_encode_append (env : Env) (frames : List Bytes)
    (h : ∀ f ∈ frames, f.length < 2 ^ 32) (st : FilterState) (tail : Bytes) :
    processChunks env st (encodeMultiPayload frames ++ tail) =
      match dispatchChunks env st frames with
      | (st₁, .error e) => (st₁, .error e)
      | (st₁, .ok _) => processChunks env st₁ tail := by
  induction frames generalizing st with
  | nil => simp only [encodeMultiPayload, List.nil_append, dispatchChunks]
  | cons f fs ih =>
    rw [encodeMultiPayload, List.append_assoc (u32le f.length ++ f)]
    rw [processChunks_cons env st f (encodeMultiPayload fs ++ tail)
      (h f (List.mem_cons_self f fs)), dispatchChunks]
    match hc : check_ws_message env st f with
    | (st', .error e) => rfl
    | (st', .ok v) => exact ih (fun g hg => h g (List.mem_cons_of_mem f hg)) st'

/-- C5 — Round-trip: a multi-message container holding the
length-prefixed concatenation of N sub-frames — directly when the size
hint is zero, gzip-compressed when it is non-zero — unpacks to exactly
the same N sub-frames, byte for byte, in the original order. -/
theorem C5_multi_roundtrip (env : Env) (frames : List Bytes)
    (cbytes gzbytes : Bytes) (z : Nat)
    (hframes : ∀ f ∈ frames, f.length < 2 ^ 32)
    (hparse : env.parseMulti cbytes =
      .ok { message_body := if z = 0 then encodeMultiPayload frames else gzbytes
            size_unzipped := z })
    (hgz : z ≠ 0 → env.gunzip gzbytes = .ok (encodeMultiPayload frames)) :
    unpackMulti env cbytes = .ok frames := by
  by_cases hz : z = 0
  · subst hz
    simp [unpackMulti, hparse, unpackChunks_encode frames hframes]
  · simp [unpackMulti, hparse, hz, hgz hz, unpackChunks_encode frames hframes]

/-- A witness for C5: two sub-frames `[7]` and `[8, 9]`, compressed with
the identity compressor under a non-zero size hint. -/
theorem C5_witness :
    unpackMulti testEnv (1 :: encodeMultiPayload [[7], [8, 9]]) =
      .ok [[7], [8, 9]] :=
  C5_multi_roundtrip testEnv [[7], [8, 9]]
    (1 :: encodeMultiPayload [[7], [8, 9]]) (encodeMultiPayload [[7], [8, 9]]) 1
    (by decide) (by decide) (fun _ => by decide)

/-- C6 counterexample — a multi container whose payload is the single
byte `[1]` (a truncated length prefix of fewer than 4 bytes) does NOT
make unpacking fail: processing returns success with the state
untouched, while the claim expects a decode error. -/
theorem C6_counterexample :
    process_multi_message testEnv initSt [0, 1] = (initSt, .ok ()) ∧
    ¬ ∃ e : Error,
      (process_multi_message testEnv initSt [0, 1]).2 = .error e := by
  have h1 : process_multi_message testEnv initSt [0, 1] = (initSt, .ok ()) := by
    simp [process_multi_message, testEnv, testParseMulti, processChunks]
  refine ⟨h1, ?_⟩
  rintro ⟨e, he⟩
  rw [h1] at he
  simp at he

/-- C6 amended — Inside a Multi container, a decompression failure or a
length prefix whose declared length exceeds the remaining bytes fails
with a decode error and aborts the remaining unexpanded sub-frames,
while every sub-frame extracted before the fault has already been
dispatched (the abort returns the state those dispatches produced); a
truncated trailing prefix of fewer than 4 bytes, however, silently ends
the loop with success instead of failing. -/
theorem C6_multi_abort :
    (∀ (env : Env) (st st₁ : FilterState) (frames : List Bytes)
      (a b c d : Nat) (tail : Bytes),
      (∀ f ∈ frames, f.length < 2 ^ 32) →
      dispatchChunks env st frames = (st₁, .ok ()) →
      tail.length < a + b * 256 + c * 65536 + d * 16777216 →
      processChunks env st
          (encodeMultiPayload frames ++ (a :: b :: c :: d :: tail)) =
        (st₁, .error .IoError)) ∧
    (∀ (env : Env) (st : FilterState) (body : Bytes) (m : CMsgMulti)
      (e : Error),
      env.parseMulti body = .ok m → m.size_unzipped ≠ 0 →
      env.gunzip m.message_body = .error e →
      process_multi_message env st body = (st, .error e)) ∧
    (∀ (env : Env) (st st₁ : FilterState) (frames : List Bytes)
      (tail : Bytes),
      (∀ f ∈ frames, f.length < 2 ^ 32) →
      dispatchChunks env st frames = (st₁, .ok ()) →
      tail.length < 4 →
      processChunks env st (encodeMultiPayload frames ++ tail) =
        (st₁, .ok ())) := by
  refine ⟨?_, ?_, ?_⟩
  · intro env st st₁ frames a b c d tail hlen hdisp hshort
    rw [processChunks_encode_append env frames hlen st, hdisp]
    show processChunks env st₁ (a :: b :: c :: d :: tail) =
      (st₁, .error .IoError)
    rw [processChunks, if_neg (by omega)]
  · intro env st body m e hm hz hgz
    simp only [process_multi_message, hm, if_pos hz, hgz]
  · intro env st st₁ frames tail hlen hdisp h4
    rw [processChunks_encode_append env frames hlen st, hdisp]
    exact processChunks_short env st₁ tail h4

/-- A witness for the amended C6: after dispatching one well-formed
sub-frame, an overlong declared length aborts with the I/O decode
error, a failing decompressor aborts with its error, and a 1-byte
trailing prefix ends with success. -/
theorem C6_witness :
    processChunks testEnv initSt
        (encodeMultiPayload [mkFrame 2 [0, 0, 1] []] ++ [1, 0, 0, 0]) =
      (initSt, .error .IoError) ∧
    process_multi_message gzFailEnv initSt [1, 9] =
      (initSt, .error .GzipError) ∧
    processChunks testEnv initSt
        (encodeMultiPayload [mkFrame 2 [0, 0, 1] []] ++ [9]) =
      (initSt, .ok ()) := by
  refine ⟨?_, ?_, ?_⟩
  · exact C6_multi_abort.1 testEnv initSt initSt [mkFrame 2 [0, 0, 1] []]
      1 0 0 0 [] (by decide) (by decide) (by decide)
  · exact C6_multi_abort.2.1 gzFailEnv initSt [1, 9]
      { message_body := [9], size_unzipped := 1 } .GzipError
      (by decide) (by decide) (by decide)
  · exact C6_multi_abort.2.2 testEnv initSt initSt [mkFrame 2 [0, 0, 1] []]
      [9] (by decide) (by decide) (by decide)

/-- C9 — Every sub-frame extracted from a Multi container is
re-submitted to `check_ws_message`, the very correlation step applied to
a top-level frame (session-id update and job-id correlation with sink
delivery included), and only one level of nesting is unpacked: when the
single sub-frame of a container is itself a Multi message, its
processing ends with the correlation step — the state is exactly the
correlation result and the nested body is never expanded. -/
theorem C9_one_level_expansion :
    (∀ (env : Env) (frames : List Bytes),
      (∀ f ∈ frames, f.length < 2 ^ 32) → ∀ st : FilterState,
      processChunks env st (encodeMultiPayload frames) =
        dispatchChunks env st frames) ∧
    (∀ (env : Env) (st st₁ : FilterState) (sf body : Bytes),
      sf.length < 2 ^ 32 →
      check_ws_message env st sf = (st₁, .ok (some (.Multi, body))) →
      processChunks env st (encodeMultiPayload [sf]) = (st₁, .ok ())) := by
  constructor
  · intro env frames h st
    exact processChunks_encode env frames h st
  · intro env st st₁ sf body hlen hcheck
    rw [processChunks_encode env [sf] (by simpa using hlen) st]
    simp only [dispatchChunks, hcheck]

/-- A witness for C9: a container holding a single sub-frame that is
itself a Multi message; processing leaves the initial state untouched —
the nested container is not expanded. -/
theorem C9_witness :
    processChunks testEnv initSt
        (encodeMultiPayload [mkFrame 1 [0, 0, 1] [0]]) =
      (initSt, .ok ()) ∧
    processChunks testEnv initSt (encodeMultiPayload [[7]]) =
      dispatchChunks testEnv initSt [[7]] := by
  constructor
  · exact C9_one_level_expansion.2 testEnv initSt initSt
      (mkFrame 1 [0, 0, 1] [0]) [0] (by decide) (by decide)
  · exact C9_one_level_expansion.1 testEnv [[7]] (by decide) initSt

end SteamSession
